import Mathlib

/-!
Verification development for the geometry-analysis service of the
`vectismachining` repository (`geometry-service/app.py` and
`geometry-service/routing_selector_industrial.py`).

Modelling conventions:
* Python floating-point numbers are modelled by exact rationals (`ℚ`); the
  transcendental dihedral-angle computation is modelled over `ℝ`.
* The source compares Euclidean distances `math.sqrt(Σ (aᵢ-bᵢ)²)`.  Since
  `sqrt` is strictly monotone on nonnegative reals, every such comparison is
  embedded as the corresponding comparison of squared distances (`dist2`),
  which keeps all definitions executable over `ℚ`.
* OpenCascade kernel outputs (bounding box, per-face surface data, GProp
  centroids, triangulation centers, edge/face incidence) are inputs of the
  embedding: a face is a record of the data the source reads from the kernel,
  and the edge-to-face map `MapShapesAndAncestors` is recovered from the
  per-face edge-id lists.
* A Python `ZeroDivisionError` (there is no guard in the source) is modelled
  by `Except.error ()`.
-/

/-- A 3-D point/vector with rational coordinates. -/
structure Pnt where
  x : ℚ
  y : ℚ
  z : ℚ
deriving DecidableEq

/-- Cylinder parameters read from `surface.Cylinder()`: radius, axis location
point (`Axis().Location()`) and axis direction (`Axis().Direction()`). -/
structure Cyl where
  radius : ℚ
  axisLoc : Pnt
  axisDir : Pnt
deriving DecidableEq

/-- Surface type of a face as read from `BRepAdaptor_Surface(face).GetType()`,
with the type-specific parameters the source extracts.  Everything that is not
a cylinder, plane or torus falls into the `other` branch exactly as in the
source's final `else`. -/
inductive Surf where
  | cylinder (c : Cyl)
  | plane (normal : Pnt)
  | torus
  | other
deriving DecidableEq

/-- A face of the solid: the kernel data `recognize_manufacturing_features`
and `classify_mesh_faces` read.  `centroid` stands for the face center used by
the function at hand (the GProp centre of mass in
`recognize_manufacturing_features`, the triangulation average in
`classify_mesh_faces`); `edges` are the ids of the edges bounding the face,
from which the `MapShapesAndAncestors` edge→face map is recovered. -/
structure FaceGeo where
  surf : Surf
  area : ℚ
  centroid : Pnt
  edges : List Nat
deriving DecidableEq

/-- Default face used to total `List.getD` lookups (never looked up for
indices inside the list). -/
def fdefault : FaceGeo := { surf := Surf.other, area := 0, centroid := ⟨0, 0, 0⟩, edges := [] }

/-- Bounding box as returned by `bbox.Get()`. -/
structure BBox where
  xmin : ℚ
  ymin : ℚ
  zmin : ℚ
  xmax : ℚ
  ymax : ℚ
  zmax : ℚ
deriving DecidableEq

/-- Center of the bounding box, `[(xmin+xmax)/2, (ymin+ymax)/2, (zmin+zmax)/2]`. -/
def bboxCenter (bb : BBox) : Pnt :=
  ⟨(bb.xmin + bb.xmax) / 2, (bb.ymin + bb.ymax) / 2, (bb.zmin + bb.zmax) / 2⟩

/-- The size reference `bbox_size = max(xmax - xmin, ymax - ymin, zmax - zmin)`
used by every ratio test of `recognize_manufacturing_features` and
`classify_mesh_faces`. -/
def bboxSize (bb : BBox) : ℚ :=
  max (bb.xmax - bb.xmin) (max (bb.ymax - bb.ymin) (bb.zmax - bb.zmin))

/-- Squared Euclidean distance.  The source computes
`math.sqrt((a0-b0)**2 + (a1-b1)**2 + (a2-b2)**2)` and only ever compares two
such values; `sqrt` is strictly monotone on nonnegatives, so each source
comparison `dist a < dist b` is embedded as `dist2 a < dist2 b`. -/
def dist2 (p q : Pnt) : ℚ :=
  (p.x - q.x) ^ 2 + (p.y - q.y) ^ 2 + (p.z - q.z) ^ 2

/-- Indices of the faces adjacent to edge `e`: the entry for `e` in the
`TopTools_IndexedDataMapOfShapeListOfShape` built by
`topexp.MapShapesAndAncestors(shape, TopAbs_EDGE, TopAbs_FACE, ...)`. -/
def facesOfEdge (faces : List FaceGeo) (e : Nat) : List Nat :=
  (List.range faces.length).filter (fun j => (faces.getD j fdefault).edges.contains e)

/-- Test applied by `recognize_manufacturing_features` (lines 184–216) to an
adjacent face while looking for an "external connection": a planar neighbor
always counts; a cylindrical neighbor counts when its centroid is farther from
its own axis location than the bbox center is; any other surface never counts. -/
def isExternalNeighbor (bb : BBox) (g : FaceGeo) : Bool :=
  match g.surf with
  | Surf.plane _ => true
  | Surf.cylinder c => decide (dist2 g.centroid c.axisLoc > dist2 (bboxCenter bb) c.axisLoc)
  | _ => false

/-- The `has_external_connection` scan of `recognize_manufacturing_features`
(lines 169–223): some edge of face `i` has an adjacent face, distinct from
`i`, that passes `isExternalNeighbor`.  The source's nested loops with
`break`s compute exactly this existence test. -/
def hasExternalConnection (bb : BBox) (faces : List FaceGeo) (i : Nat) : Bool :=
  (faces.getD i fdefault).edges.any (fun e =>
    (facesOfEdge faces e).any (fun j =>
      (j != i) && isExternalNeighbor bb (faces.getD j fdefault)))

/-- Outcome of the per-face branch of `recognize_manufacturing_features`.
`largeInternal` and `largeExternal` are the two `else` comments ("very large
internal cavity / main body cylinder — not counted as separate feature"):
such faces are appended to no feature list. -/
inductive FaceClass where
  | throughHole
  | blindHole
  | bore
  | boss
  | largeInternal
  | largeExternal
  | planarFace
  | filletFace
  | complexSurface
deriving DecidableEq

/-- Per-face classification of `recognize_manufacturing_features`
(lines 122–258).  For a cylindrical face the source evaluates
`diameter_ratio = (radius * 2) / bbox_size` unguarded; when `bbox_size = 0`
Python raises `ZeroDivisionError`, modelled here by `Except.error ()`. -/
def classifyFace (bb : BBox) (faces : List FaceGeo) (i : Nat) : Except Unit FaceClass :=
  match (faces.getD i fdefault).surf with
  | Surf.cylinder c =>
      if bboxSize bb = 0 then Except.error () else
      if dist2 (faces.getD i fdefault).centroid c.axisLoc
          < dist2 (bboxCenter bb) c.axisLoc then
        if c.radius * 2 / bboxSize bb < 15 / 100 then
          if hasExternalConnection bb faces i then Except.ok FaceClass.throughHole
          else Except.ok FaceClass.blindHole
        else if c.radius * 2 / bboxSize bb < 1 / 2 then Except.ok FaceClass.bore
        else Except.ok FaceClass.largeInternal
      else
        if c.radius * 2 / bboxSize bb < 3 / 10 then Except.ok FaceClass.boss
        else Except.ok FaceClass.largeExternal
  | Surf.plane _ => Except.ok FaceClass.planarFace
  | Surf.torus => Except.ok FaceClass.filletFace
  | Surf.other => Except.ok FaceClass.complexSurface

/-- Indices of the faces that land in the feature list tagged `k`, in face
enumeration order (the source appends to the corresponding list while
iterating `all_faces`). -/
def collect (bb : BBox) (faces : List FaceGeo) (k : FaceClass) : List Nat :=
  (List.range faces.length).filter
    (fun i => decide ((classifyFace bb faces i).toOption = some k))

/-- The `features` dictionary returned by `recognize_manufacturing_features`,
with each feature represented by the index of its contributing face (the
per-feature payload — diameter, axis, position, area — is a pure projection of
that face and plays no part in which list a face joins).  The key set mirrors
the source exactly: `pockets` is initialized and never filled, and there is no
groove list of any kind.  `holes` and `cylindrical_bosses` are the legacy
aliases built at lines 274–275. -/
structure Features where
  through_holes : List Nat
  blind_holes : List Nat
  bores : List Nat
  bosses : List Nat
  pockets : List Nat
  planar_faces : List Nat
  fillets : List Nat
  complex_surfaces : List Nat
  holes : List Nat
  cylindrical_bosses : List Nat
deriving DecidableEq

/-- The feature record built when every per-face classification succeeds. -/
def mkFeatures (bb : BBox) (faces : List FaceGeo) : Features :=
  { through_holes := collect bb faces FaceClass.throughHole
    blind_holes := collect bb faces FaceClass.blindHole
    bores := collect bb faces FaceClass.bore
    bosses := collect bb faces FaceClass.boss
    pockets := []
    planar_faces := collect bb faces FaceClass.planarFace
    fillets := collect bb faces FaceClass.filletFace
    complex_surfaces := collect bb faces FaceClass.complexSurface
    holes := collect bb faces FaceClass.throughHole ++ collect bb faces FaceClass.blindHole
    cylindrical_bosses := collect bb faces FaceClass.boss }

/-- Embedding of `recognize_manufacturing_features`: classify every face; if
any classification raises (division by zero on a degenerate bbox), the whole
analysis aborts with the exception, otherwise the feature lists are returned. -/
def recognizeFeatures (bb : BBox) (faces : List FaceGeo) : Except Unit Features :=
  if (List.range faces.length).all (fun i => (classifyFace bb faces i).toOption.isSome) then
    Except.ok (mkFeatures bb faces)
  else Except.error ()

/-- Undirected face adjacency through a shared edge, the relation underlying
the `edge_face_map` connectivity scans. -/
def adjacentFaces (faces : List FaceGeo) (i j : Nat) : Prop :=
  i ≠ j ∧ ∃ e, e ∈ (faces.getD i fdefault).edges ∧ e ∈ (faces.getD j fdefault).edges

/-- Modelled from the spec: an "outer-labeled face" (spec §4.2/§4.3), the
target of the claimed adjacency-path test for through-holes.  The source never
labels faces `outer`; the most charitable reading available is the source's
own external-cylinder test (centroid farther from the axis location than the
bbox center is). -/
def outerLabeledFace (bb : BBox) (g : FaceGeo) : Prop :=
  ∃ c, g.surf = Surf.cylinder c ∧
    dist2 g.centroid c.axisLoc > dist2 (bboxCenter bb) c.axisLoc

/-- Dihedral angle computed by `calculate_dihedral_angle` (lines 317–356) from
the dot product `d` of the two sampled unit normals:
`abs(π - arccos(clamp(d, -1, 1)))`.  Note the `π -` : the source subtracts the
angle between the normals from `π` before comparing with the threshold. -/
noncomputable def calcDihedralAngle (d : ℝ) : ℝ :=
  |Real.pi - Real.arccos (max (-1) (min 1 d))|

/-- Significance decision of `extract_feature_edges` (lines 413–447) for one
edge.  `inMap` is `edge_face_map.Contains(edge)`; `numAdjFaces` the size of
the edge's face list; `dihedral` the result of `calculate_dihedral_angle`
(`none` when the computation fails).  The threshold is
`math.radians(20) = π/9`.  An edge with two adjacent faces is significant only
when an angle was produced and exceeds the threshold; with any other adjacent
count inside the map it stays insignificant; an edge missing from the map is
kept as an orphan. -/
def edgeIsSignificant (inMap : Bool) (numAdjFaces : Nat) (dihedral : Option ℝ) : Prop :=
  if inMap then
    if numAdjFaces = 1 then True
    else if numAdjFaces = 2 then ∃ a, dihedral = some a ∧ a > Real.pi / 9
    else False
  else True

/-- Face labels used by `classify_mesh_faces`: the strings
`"through"`, `"internal"`, `"external"`, `"planar"`. -/
inductive MLabel where
  | through
  | internal
  | external
  | planar
deriving DecidableEq

/-- The `has_outer_neighbor` scan of `classify_mesh_faces` step 1
(lines 803–854): some edge of face `i` has an adjacent face that is a cylinder
whose centroid is farther from its own axis location than the bbox center is.
Unlike `recognize_manufacturing_features`, a planar neighbor never counts
(`if other_info['surf_type'] != GeomAbs_Cylinder: break`), and the scan does
not exclude the face itself. -/
def hasOuterNeighbor (bb : BBox) (faces : List FaceGeo) (i : Nat) : Bool :=
  (faces.getD i fdefault).edges.any (fun e =>
    (facesOfEdge faces e).any (fun j =>
      match (faces.getD j fdefault).surf with
      | Surf.cylinder c =>
          decide (dist2 (faces.getD j fdefault).centroid c.axisLoc
            > dist2 (bboxCenter bb) c.axisLoc)
      | _ => false))

/-- Step 1 of `classify_mesh_faces` (lines 764–877) for face `i`: cylindrical
faces are labeled from the centroid/axis/bbox-center distance comparison, with
small internal cylinders (`radius < bbox_size * 0.15`) refined to `through`
when `has_outer_neighbor` holds; non-cylindrical faces are skipped (`none`). -/
def classifyCylFace (bb : BBox) (faces : List FaceGeo) (i : Nat) : Option MLabel :=
  match (faces.getD i fdefault).surf with
  | Surf.cylinder c =>
      if dist2 (faces.getD i fdefault).centroid c.axisLoc
          < dist2 (bboxCenter bb) c.axisLoc then
        if c.radius < bboxSize bb * (15 / 100) then
          if hasOuterNeighbor bb faces i then some MLabel.through
          else some MLabel.internal
        else some MLabel.internal
      else some MLabel.external
  | _ => none

/-- Ray-probe answers the spec's topology classifier would obtain for a face:
whether the test point offset `+ε` (resp. `-ε`) along the normal escapes the
solid, and whether a cast ray re-intersects the same face. -/
structure RayProbe where
  posEscapes : Bool
  negEscapes : Bool
  rayHitsSameFace : Bool
deriving DecidableEq

/-- Labels of the spec's topology classifier. -/
inductive SpecLabel where
  | outer
  | inner
  | through
deriving DecidableEq

/-- Modelled from the spec (§4.3): the claimed ray-casting classification rule
— same-face re-intersection gives `through`; both directions escaping gives
`outer`; one escaping and one hitting material, or both hitting material,
gives `inner`.  The source contains no `point_in_solid` or `ray_intersect`
query at all; this definition exists solely to compare the claimed rule with
the code's actual geometry heuristic. -/
def specRayLabel (p : RayProbe) : SpecLabel :=
  if p.rayHitsSameFace then SpecLabel.through
  else if p.posEscapes && p.negEscapes then SpecLabel.outer
  else SpecLabel.inner

/-- Correspondence between the spec's label names and the code's label
strings: `outer ↦ "external"`, `inner ↦ "internal"`, `through ↦ "through"`. -/
def specToCode : SpecLabel → MLabel
  | SpecLabel.outer => MLabel.external
  | SpecLabel.inner => MLabel.internal
  | SpecLabel.through => MLabel.through

/-- Labels of the already-labeled neighbors of face `i`
(`neighbor_types`, lines 903–931): over every edge of the face and every
adjacent face `j ≠ i` found in the edge-face map, the current classification
of `j` when it has one. -/
def neighborLabels (faces : List FaceGeo) (cls : List (Option MLabel)) (i : Nat) :
    List MLabel :=
  (faces.getD i fdefault).edges.flatMap (fun e =>
    (facesOfEdge faces e).filterMap (fun j =>
      if j = i then none else cls.getD j none))

/-- Label adopted from a nonempty neighbor list (lines 936–943): `internal` if
present, else `through` if present, else `external` — pure priority presence,
no counting. -/
def priorityAdopted (nbrs : List MLabel) : MLabel :=
  if MLabel.internal ∈ nbrs then MLabel.internal
  else if MLabel.through ∈ nbrs then MLabel.through
  else MLabel.external

/-- Whether a face is planar (`surf_type == GeomAbs_Plane`). -/
def isPlaneSurf (f : FaceGeo) : Bool :=
  match f.surf with
  | Surf.plane _ => true
  | _ => false

/-- Modelled from the spec (§4.4): the "priority-ordered majority label" the
claim says each unlocked face adopts — the label occurring most often among
the labeled neighbors, ties broken by the priority
`inner > through > outer > planar`. -/
def majorityLabel (l : List MLabel) : Option MLabel :=
  if l = [] then none else
  if l.count MLabel.internal ≥ l.count MLabel.through ∧
     l.count MLabel.internal ≥ l.count MLabel.external ∧
     l.count MLabel.internal ≥ l.count MLabel.planar then some MLabel.internal
  else if l.count MLabel.through ≥ l.count MLabel.external ∧
          l.count MLabel.through ≥ l.count MLabel.planar then some MLabel.through
  else if l.count MLabel.external ≥ l.count MLabel.planar then some MLabel.external
  else some MLabel.planar

/-- One face update of the propagation pass (lines 888–956).  Locked faces are
skipped; otherwise, with a nonempty labeled-neighbor list the priority label is
adopted; with no labeled neighbor an unlabeled face defaults to `planar`
(planar surface) or `external`, and a labeled face keeps its label.  The
update is written into the classification map in place, so later faces of the
same pass see it. -/
def passStep (faces : List FaceGeo) (locked : List Nat) (cls : List (Option MLabel))
    (i : Nat) : List (Option MLabel) :=
  if i ∈ locked then cls
  else
    let nbrs := neighborLabels faces cls i
    let newT :=
      if nbrs ≠ [] then priorityAdopted nbrs
      else
        match cls.getD i none with
        | none => if isPlaneSurf (faces.getD i fdefault) then MLabel.planar else MLabel.external
        | some t => t
    cls.set i (some newT)

/-- One full propagation pass: every face in enumeration order, threading the
classification map through (the source mutates `face_classifications` while
iterating `face_data`). -/
def onePass (faces : List FaceGeo) (locked : List Nat) (cls : List (Option MLabel)) :
    List (Option MLabel) :=
  (List.range faces.length).foldl (fun s i => passStep faces locked s i) cls

/-- The bounded iteration of `classify_mesh_faces` step 2: run a pass; stop
when it changed nothing (`changes_made` is false exactly when the map is
unchanged, since each face is written at most once per pass); otherwise
continue, for at most `fuel` passes. -/
def propLoop (faces : List FaceGeo) (locked : List Nat) :
    Nat → List (Option MLabel) → List (Option MLabel)
  | 0, s => s
  | n + 1, s =>
      let s' := onePass faces locked s
      if s' = s then s else propLoop faces locked n s'

/-- Step 2 of `classify_mesh_faces` (lines 883–962): multi-pass propagation
with `max_iterations = 10`, returning the labeling reached when a pass makes
no change or the bound is exhausted. -/
def propagateClassifications (faces : List FaceGeo) (locked : List Nat)
    (cls : List (Option MLabel)) : List (Option MLabel) :=
  propLoop faces locked 10 cls

/-- Fields of the `/analyze-cad` JSON response relevant to the unit contract
(lines 1044–1082): the exact BREP volume and surface area as computed by the
kernel (in mm³ / mm²), their converted forms, and the bbox extents in cm. -/
structure AnalyzeResponse where
  exact_volume : ℚ
  exact_surface_area : ℚ
  volume_cm3 : ℚ
  surface_area_cm2 : ℚ
  part_width_cm : ℚ
  part_height_cm : ℚ
  part_depth_cm : ℚ
deriving DecidableEq

/-- Construction of those response fields in `analyze_cad`: `volume_cm3 =
exact_volume / 1000`, `surface_area_cm2 = exact_surface_area / 100`, and the
part dimensions are the bbox extents divided by 10. -/
def buildAnalyzeResponse (volume area : ℚ) (bb : BBox) : AnalyzeResponse :=
  { exact_volume := volume
    exact_surface_area := area
    volume_cm3 := volume / 1000
    surface_area_cm2 := area / 100
    part_width_cm := (bb.xmax - bb.xmin) / 10
    part_height_cm := (bb.ymax - bb.ymin) / 10
    part_depth_cm := (bb.zmax - bb.zmin) / 10 }

/-- Geometry descriptor consumed by `select_routings_industrial`.  Each field
is optional, mirroring `desc.get(key, default)` on the Python dictionary. -/
structure GeomDesc where
  bounding_box : Option (List ℚ)
  volume_cm3 : Option ℚ
  is_cylindrical : Option Bool
  has_flat_surfaces : Option Bool
  holes_count : Option Int
  grooves_count : Option Int
  complexity_score : Option Int
  tolerance : Option ℚ
deriving DecidableEq

/-- Python `max(bbox) if bbox else 0`. -/
def listMax : List ℚ → ℚ
  | [] => 0
  | x :: xs => xs.foldl max x

/-- Substring containment on character lists, used for the Python membership
tests `"stainless" in material_lower` etc. -/
def containsSub (s sub : List Char) : Bool :=
  s.tails.any (fun t => sub.isPrefixOf t)

/-- Python `material.lower()`, as a character list. -/
def lowerChars (material : String) : List Char :=
  material.toList.map Char.toLower

/-- Routings appended by the cylindrical-part branch (lines 48–69): primary
turning machine by size, `VMC Machining` for many holes or high complexity,
`Keyway Machine` when grooves are present. -/
def cylRoutings (largest : ℚ) (holes complexity grooves : Int) : List String :=
  (if largest < 500 then ["CNC Lathe"] else ["Boring Mill"])
    ++ (if 0 < holes ∧ (4 ≤ holes ∨ 7 ≤ complexity) then ["VMC Machining"] else [])
    ++ (if 0 < grooves then ["Keyway Machine"] else [])

/-- Routings appended by the prismatic-part branch (lines 72–92): primary
milling machine by size, `VMC Machining` for holes when not already present,
`Wire EDM` for complexity ≥ 8. -/
def prismRoutings (largest : ℚ) (holes complexity : Int) : List String :=
  (if largest < 1000 then ["VMC Machining"] else ["Boring Mill"])
    ++ (if 0 < holes ∧
          "VMC Machining" ∉ (if largest < 1000 then ["VMC Machining"] else ["Boring Mill"])
        then ["VMC Machining"] else [])
    ++ (if 8 ≤ complexity then ["Wire EDM"] else [])

/-- Geometry-driven part of the routing list: cylindrical branch, else
prismatic branch, else nothing. -/
def geomRoutings (isCyl hasFlats : Bool) (largest : ℚ) (holes complexity grooves : Int) :
    List String :=
  if isCyl then cylRoutings largest holes complexity grooves
  else if hasFlats then prismRoutings largest holes complexity
  else []

/-- Material-based routing (lines 94–101): hard/abrasive materials add
`Wire EDM` when not already selected. -/
def materialRoutings (r : List String) (mLower : List Char) : List String :=
  r ++ (if (containsSub mLower "stainless".toList
            || containsSub mLower "hardened".toList
            || containsSub mLower "tool steel".toList) = true ∧ "Wire EDM" ∉ r
        then ["Wire EDM"] else [])

/-- Tolerance-driven finishing (lines 111–117): tolerance below 0.01 mm adds
`Wire EDM` when not already selected. -/
def tolRoutings (r : List String) (tol : ℚ) : List String :=
  r ++ (if tol < 1 / 100 ∧ "Wire EDM" ∉ r then ["Wire EDM"] else [])

/-- Fallback (lines 127–130): an empty routing list becomes
`["VMC Machining"]`. -/
def withFallback (r : List String) : List String :=
  if r = [] then ["VMC Machining"] else r

/-- One step of the duplicate-removal loop (lines 132–136). -/
def insertIfAbsent (acc : List String) (r : String) : List String :=
  if r ∈ acc then acc else acc ++ [r]

/-- Order-preserving duplicate removal of the routing list. -/
def dedupFirst (l : List String) : List String :=
  l.foldl insertIfAbsent []

/-- Result of `select_routings_industrial`.  The `reasoning` strings of the
source are display-only and never influence `recommended_routings`; they are
not modelled. -/
structure RoutingResult where
  recommended_routings : List String
deriving DecidableEq

/-- Embedding of `select_routings_industrial`: defaults applied as by
`desc.get`, the geometry / material / tolerance stages appended in source
order (each duplicate test looks at the list accumulated so far, exactly as in
the source), the empty-list fallback, then order-preserving deduplication. -/
def selectRoutingsIndustrial (d : GeomDesc) (material : String) : RoutingResult :=
  let largest := listMax (d.bounding_box.getD [0, 0, 0])
  let complexity := d.complexity_score.getD 5
  let holes := d.holes_count.getD 0
  let grooves := d.grooves_count.getD 0
  let tol := d.tolerance.getD (5 / 100)
  let isCyl := d.is_cylindrical.getD false
  let hasFlats := d.has_flat_surfaces.getD false
  let mLower := lowerChars material
  { recommended_routings :=
      dedupFirst (withFallback (tolRoutings
        (materialRoutings (geomRoutings isCyl hasFlats largest holes complexity grooves)
          mLower) tol)) }

/-- The five process names `select_routings_industrial` can ever emit. -/
def allowedRoutings : List String :=
  ["VMC Machining", "CNC Lathe", "Boring Mill", "Keyway Machine", "Wire EDM"]

/-! Concrete kernel outputs used by the counterexamples and witnesses. -/

/-- A 100×100×100 mm bounding box (center `(50,50,50)`, size 100). -/
def bbCube : BBox := { xmin := 0, ymin := 0, zmin := 0, xmax := 100, ymax := 100, zmax := 100 }

/-- Small cylinder (Ø4 mm) at the bottom center of `bbCube`. -/
def cylA : Cyl := { radius := 2, axisLoc := ⟨50, 50, 0⟩, axisDir := ⟨0, 0, 1⟩ }

/-- Small cylinder (Ø6 mm) on the same axis. -/
def cylB : Cyl := { radius := 3, axisLoc := ⟨50, 50, 0⟩, axisDir := ⟨0, 0, 1⟩ }

/-- Large cylinder whose wall lies farther from its axis location than the
bbox center does (the source's "external cylinder" situation). -/
def cylC : Cyl := { radius := 60, axisLoc := ⟨50, 50, 0⟩, axisDir := ⟨0, 0, 1⟩ }

/-- Three cylindrical faces forming a chain: face 0 (internal, small) shares
edge 0 only with face 1 (internal, small), which shares edge 1 with face 2
(external).  Face 0 thus has an adjacency path to the externally-classified
face 2, but no direct neighbor that passes the source's external test. -/
def facesChain : List FaceGeo :=
  [ { surf := Surf.cylinder cylA, area := 10, centroid := ⟨52, 50, 0⟩, edges := [0] },
    { surf := Surf.cylinder cylB, area := 10, centroid := ⟨53, 50, 0⟩, edges := [0, 1] },
    { surf := Surf.cylinder cylC, area := 10, centroid := ⟨50, 110, 0⟩, edges := [1] } ]

/-- Inner coaxial cylinder of a groove-shaped pair (radius 10). -/
def cylG1 : Cyl := { radius := 10, axisLoc := ⟨50, 50, 0⟩, axisDir := ⟨0, 0, 1⟩ }

/-- Outer coaxial cylinder of the pair (radius 12 > 10 × 1.05). -/
def cylG2 : Cyl := { radius := 12, axisLoc := ⟨50, 50, 0⟩, axisDir := ⟨0, 0, 1⟩ }

/-- Two coaxial internal cylindrical faces with radii differing by 20 %,
sharing edge 0 — the spec's groove situation. -/
def facesGroove : List FaceGeo :=
  [ { surf := Surf.cylinder cylG1, area := 20, centroid := ⟨60, 50, 0⟩, edges := [0] },
    { surf := Surf.cylinder cylG2, area := 20, centroid := ⟨62, 50, 0⟩, edges := [0] } ]

/-- A degenerate (single-point) bounding box: `bboxSize = 0`. -/
def bbDeg : BBox := { xmin := 0, ymin := 0, zmin := 0, xmax := 0, ymax := 0, zmax := 0 }

/-- A cylindrical face reported together with the degenerate bbox. -/
def facesDeg : List FaceGeo :=
  [ { surf := Surf.cylinder cylA, area := 5, centroid := ⟨2, 0, 0⟩, edges := [0] } ]

/-- A single cylindrical face that the mesh classifier's distance heuristic
labels `external` (centroid farther from the axis location than the bbox
center is). -/
def facesSolo : List FaceGeo :=
  [ { surf := Surf.cylinder cylC, area := 10, centroid := ⟨50, 110, 0⟩, edges := [] } ]

/-- Ray-probe answers for a face both of whose offset test points hit
material: the spec's rule labels it `inner`. -/
def probeBothHit : RayProbe := { posEscapes := false, negEscapes := false, rayHitsSameFace := false }

/-- Propagation scenario: face 0 is unlocked and touches, through its three
edges, the locked faces 1 and 2 (labeled `external`) and 3 (labeled
`internal`) — two `external` neighbors against one `internal`. -/
def facesProp : List FaceGeo :=
  [ { surf := Surf.plane ⟨0, 0, 1⟩, area := 1, centroid := ⟨0, 0, 0⟩, edges := [0, 1, 2] },
    { surf := Surf.plane ⟨0, 0, 1⟩, area := 1, centroid := ⟨1, 0, 0⟩, edges := [0] },
    { surf := Surf.plane ⟨0, 0, 1⟩, area := 1, centroid := ⟨2, 0, 0⟩, edges := [1] },
    { surf := Surf.plane ⟨0, 0, 1⟩, area := 1, centroid := ⟨3, 0, 0⟩, edges := [2] } ]

/-- Locked faces of the propagation scenario. -/
def lockedProp : List Nat := [1, 2, 3]

/-- Initial classification map of the propagation scenario. -/
def clsProp : List (Option MLabel) :=
  [none, some MLabel.external, some MLabel.external, some MLabel.internal]

/-- A concrete geometry descriptor for the routing-selector witness. -/
def descW : GeomDesc :=
  { bounding_box := some [120, 80, 40]
    volume_cm3 := some 100
    is_cylindrical := some true
    has_flat_surfaces := some true
    holes_count := some 5
    grooves_count := some 1
    complexity_score := some 8
    tolerance := some (5 / 1000) }

/-! Supporting lemmas. -/

/-- Success of an `Except Unit FaceClass` through `toOption`. -/
theorem except_toOption_eq_some (e : Except Unit FaceClass) (k : FaceClass) :
    e.toOption = some k ↔ e = Except.ok k := by
  cases e <;> simp [Except.toOption]

/-- With a nonzero bbox size no per-face classification can raise. -/
theorem classifyFace_isSome (bb : BBox) (faces : List FaceGeo)
    (hbb : bboxSize bb ≠ 0) (i : Nat) :
    (classifyFace bb faces i).toOption.isSome = true := by
  unfold classifyFace
  cases hsurf : (faces.getD i fdefault).surf with
  | cylinder c =>
      dsimp only
      rw [if_neg hbb]
      split
      · split
        · split <;> rfl
        · split <;> rfl
      · split <;> rfl
  | plane n => rfl
  | torus => rfl
  | other => rfl

/-- With a nonzero bbox size the recognizer returns its feature lists. -/
theorem recognizeFeatures_ok (bb : BBox) (faces : List FaceGeo)
    (hbb : bboxSize bb ≠ 0) :
    recognizeFeatures bb faces = Except.ok (mkFeatures bb faces) := by
  have h : (List.range faces.length).all
      (fun i => (classifyFace bb faces i).toOption.isSome) = true :=
    List.all_eq_true.mpr fun i _ => classifyFace_isSome bb faces hbb i
  simp [recognizeFeatures, h]

/-- Membership in a feature list is exactly classification with its tag. -/
theorem mem_collect (bb : BBox) (faces : List FaceGeo) (k : FaceClass) (i : Nat) :
    i ∈ collect bb faces k ↔
      i < faces.length ∧ classifyFace bb faces i = Except.ok k := by
  simp [collect, List.mem_filter, List.mem_range, except_toOption_eq_some]

/-- The bounded propagation loop computes some `k ≤ n` iterates of the pass,
stopping early exactly at a fixed point. -/
theorem propLoop_runs_iterates (faces : List FaceGeo) (locked : List Nat) :
    ∀ (n : Nat) (s : List (Option MLabel)), ∃ k, k ≤ n ∧
      propLoop faces locked n s = (onePass faces locked)^[k] s ∧
      (onePass faces locked (propLoop faces locked n s) = propLoop faces locked n s ∨
        k = n) := by
  intro n
  induction n with
  | zero => exact fun s => ⟨0, Nat.le_refl 0, rfl, Or.inr rfl⟩
  | succ m ih =>
      intro s
      by_cases h : onePass faces locked s = s
      · have hl : propLoop faces locked (m + 1) s = s := by
          simp [propLoop, h]
        exact ⟨0, Nat.zero_le _, hl, Or.inl (by rw [hl]; exact h)⟩
      · obtain ⟨k, hk, heq, hfix⟩ := ih (onePass faces locked s)
        have hl : propLoop faces locked (m + 1) s =
            propLoop faces locked m (onePass faces locked s) := by
          simp [propLoop, h]
        refine ⟨k + 1, Nat.succ_le_succ hk, ?_, ?_⟩
        · rw [hl, heq, Function.iterate_succ_apply]
        · rcases hfix with hf | hke
          · exact Or.inl (by rw [hl]; exact hf)
          · exact Or.inr (by rw [hke])

/-- Elements produced by one deduplication step. -/
theorem mem_insertIfAbsent {acc : List String} {r x : String}
    (h : x ∈ insertIfAbsent acc r) : x ∈ acc ∨ x = r := by
  by_cases hr : r ∈ acc
  · simp only [insertIfAbsent, if_pos hr] at h
    exact Or.inl h
  · simp only [insertIfAbsent, if_neg hr] at h
    rcases List.mem_append.mp h with h1 | h1
    · exact Or.inl h1
    · exact Or.inr (List.mem_singleton.mp h1)

/-- One deduplication step preserves `Nodup`. -/
theorem nodup_insertIfAbsent {acc : List String} (r : String) (h : acc.Nodup) :
    (insertIfAbsent acc r).Nodup := by
  by_cases hr : r ∈ acc
  · simpa only [insertIfAbsent, if_pos hr] using h
  · simp only [insertIfAbsent, if_neg hr]
    rw [List.nodup_append]
    exact ⟨h, List.nodup_singleton r,
      fun a ha hb => hr (List.mem_singleton.mp hb ▸ ha)⟩

/-- One deduplication step never empties a nonempty accumulator. -/
theorem insertIfAbsent_ne_nil {acc : List String} (r : String) (h : acc ≠ []) :
    insertIfAbsent acc r ≠ [] := by
  by_cases hr : r ∈ acc
  · simpa only [insertIfAbsent, if_pos hr] using h
  · simp [insertIfAbsent, if_neg hr]

/-- Elements surviving the deduplication fold come from the accumulator or
the input. -/
theorem mem_foldl_insertIfAbsent :
    ∀ (l acc : List String) (x : String),
      x ∈ l.foldl insertIfAbsent acc → x ∈ acc ∨ x ∈ l := by
  intro l
  induction l with
  | nil => exact fun acc x h => Or.inl h
  | cons a t ih =>
      intro acc x h
      rcases ih (insertIfAbsent acc a) x h with h1 | h1
      · rcases mem_insertIfAbsent h1 with h2 | h2
        · exact Or.inl h2
        · exact Or.inr (h2 ▸ List.mem_cons_self a t)
      · exact Or.inr (List.mem_cons_of_mem a h1)

/-- The deduplication fold preserves `Nodup` of the accumulator. -/
theorem nodup_foldl_insertIfAbsent :
    ∀ (l acc : List String), acc.Nodup → (l.foldl insertIfAbsent acc).Nodup := by
  intro l
  induction l with
  | nil => exact fun acc h => h
  | cons a t ih => exact fun acc h => ih _ (nodup_insertIfAbsent a h)

/-- The deduplication fold preserves nonemptiness of the accumulator. -/
theorem foldl_insertIfAbsent_ne_nil :
    ∀ (l acc : List String), acc ≠ [] → l.foldl insertIfAbsent acc ≠ [] := by
  intro l
  induction l with
  | nil => exact fun acc h => h
  | cons a t ih => exact fun acc h => ih _ (insertIfAbsent_ne_nil a h)

/-- The deduplicated routing list is duplicate-free. -/
theorem dedupFirst_nodup (l : List String) : (dedupFirst l).Nodup :=
  nodup_foldl_insertIfAbsent l [] List.nodup_nil

/-- Deduplication introduces no new elements. -/
theorem mem_dedupFirst {x : String} {l : List String} (h : x ∈ dedupFirst l) :
    x ∈ l := by
  rcases mem_foldl_insertIfAbsent l [] x h with h0 | h1
  · cases h0
  · exact h1

/-- Deduplication of a nonempty list is nonempty. -/
theorem dedupFirst_ne_nil {l : List String} (h : l ≠ []) : dedupFirst l ≠ [] := by
  cases l with
  | nil => exact absurd rfl h
  | cons a t =>
      unfold dedupFirst
      rw [List.foldl_cons]
      have ha : insertIfAbsent [] a = [a] := by simp [insertIfAbsent]
      rw [ha]
      exact foldl_insertIfAbsent_ne_nil t [a] (by simp)

/-- The fallback list is never empty. -/
theorem withFallback_ne_nil (l : List String) : withFallback l ≠ [] := by
  by_cases h : l = []
  · simp [withFallback, h]
  · simp only [withFallback, if_neg h]
    exact h

/-- Elements of the fallback list. -/
theorem mem_withFallback {x : String} {l : List String} (h : x ∈ withFallback l) :
    x = "VMC Machining" ∨ x ∈ l := by
  by_cases hl : l = []
  · simp only [withFallback, if_pos hl] at h
    exact Or.inl (List.mem_singleton.mp h)
  · simp only [withFallback, if_neg hl] at h
    exact Or.inr h

/-- Elements added by the tolerance stage. -/
theorem mem_tolRoutings {x : String} {r : List String} {tol : ℚ}
    (h : x ∈ tolRoutings r tol) : x ∈ r ∨ x = "Wire EDM" := by
  unfold tolRoutings at h
  rcases List.mem_append.mp h with h1 | h1
  · exact Or.inl h1
  · split at h1
    · exact Or.inr (List.mem_singleton.mp h1)
    · cases h1

/-- Elements added by the material stage. -/
theorem mem_materialRoutings {x : String} {r : List String} {m : List Char}
    (h : x ∈ materialRoutings r m) : x ∈ r ∨ x = "Wire EDM" := by
  unfold materialRoutings at h
  rcases List.mem_append.mp h with h1 | h1
  · exact Or.inl h1
  · split at h1
    · exact Or.inr (List.mem_singleton.mp h1)
    · cases h1

/-- The cylindrical branch emits only allowed process names. -/
theorem mem_cylRoutings {x : String} {largest : ℚ} {holes complexity grooves : Int}
    (h : x ∈ cylRoutings largest holes complexity grooves) : x ∈ allowedRoutings := by
  unfold cylRoutings at h
  rcases List.mem_append.mp h with h1 | h1
  · rcases List.mem_append.mp h1 with h2 | h2
    · split at h2 <;> simp_all [allowedRoutings]
    · split at h2 <;> simp_all [allowedRoutings]
  · split at h1 <;> simp_all [allowedRoutings]

/-- The prismatic branch emits only allowed process names. -/
theorem mem_prismRoutings {x : String} {largest : ℚ} {holes complexity : Int}
    (h : x ∈ prismRoutings largest holes complexity) : x ∈ allowedRoutings := by
  unfold prismRoutings at h
  rcases List.mem_append.mp h with h1 | h1
  · rcases List.mem_append.mp h1 with h2 | h2
    · split at h2 <;> simp_all [allowedRoutings]
    · split at h2 <;> simp_all [allowedRoutings]
  · split at h1 <;> simp_all [allowedRoutings]

/-- The geometry stage emits only allowed process names. -/
theorem mem_geomRoutings {x : String} {isCyl hasFlats : Bool} {largest : ℚ}
    {holes complexity grooves : Int}
    (h : x ∈ geomRoutings isCyl hasFlats largest holes complexity grooves) :
    x ∈ allowedRoutings := by
  unfold geomRoutings at h
  split at h
  · exact mem_cylRoutings h
  · split at h
    · exact mem_prismRoutings h
    · cases h

/-! Claim theorems. -/

/-- Claim C2 (code bug evaluation): for an edge between two tangent faces —
sampled normals equal, so their dot product is `1` and the angle between them
is `arccos 1 = 0°`, well below both the 5° of the claim's fillet-tangent case
and the 20° threshold — `calculate_dihedral_angle` returns
`|π - arccos 1| = π` (180°), which exceeds the `π/9` threshold, so
`extract_feature_edges` KEEPS the edge as sharp.  The claim (and the source's
own "SMOOTH/TANGENT EDGE - skip" branch comments) require this edge to be
dropped: the `π -` inversion in the formula contradicts the code's documented
intent. -/
theorem c2_tangent_edge_kept :
    Real.arccos (max (-1 : ℝ) (min 1 1)) = 0 ∧
    Real.arccos (max (-1 : ℝ) (min 1 1)) < Real.pi / 36 ∧
    calcDihedralAngle 1 = Real.pi ∧
    edgeIsSignificant true 2 (some (calcDihedralAngle 1)) := by
  have hc : max (-1 : ℝ) (min 1 1) = 1 := by norm_num
  have ha : Real.arccos (max (-1 : ℝ) (min 1 1)) = 0 := by
    rw [hc, Real.arccos_one]
  have hd : calcDihedralAngle 1 = Real.pi := by
    unfold calcDihedralAngle
    rw [ha, sub_zero, abs_of_pos Real.pi_pos]
  have hpi9 : Real.pi / 9 < Real.pi := div_lt_self Real.pi_pos (by norm_num)
  refine ⟨ha, ?_, hd, ?_⟩
  · rw [ha]
    positivity
  · simp only [edgeIsSignificant, if_true]
    norm_num
    rw [hd]
    exact hpi9

/-- Claim C7 (counterexample): an edge with exactly two adjacent faces whose
dihedral-angle computation failed (`calculate_dihedral_angle` returned
`None`) is NOT significant — `dihedral_angle is not None and ...` is false, so
the edge falls into the smooth-skip branch and is dropped, contradicting the
claimed default to "significant". -/
theorem c7_failed_angle_dropped : ¬ edgeIsSignificant true 2 none := by
  simp [edgeIsSignificant]

/-- Claim C7 (amended): an edge with two adjacent faces is kept only when the
dihedral-angle computation succeeded and its value exceeds the 20° (π/9)
threshold; a failed computation (`none`) is therefore always dropped. -/
theorem c7_two_face_edge_kept_iff_angle (d : Option ℝ)
    (h : edgeIsSignificant true 2 d) : ∃ a, d = some a ∧ a > Real.pi / 9 := by
  simpa [edgeIsSignificant] using h

/-- Witness for C7's amended theorem at the concrete angle `π`. -/
theorem c7_witness :
    edgeIsSignificant true 2 (some Real.pi) ∧
    ∃ a, (some Real.pi : Option ℝ) = some a ∧ a > Real.pi / 9 := by
  have h : edgeIsSignificant true 2 (some Real.pi) := by
    simp only [edgeIsSignificant, if_true]
    norm_num
    exact div_lt_self Real.pi_pos (by norm_num)
  exact ⟨h, c7_two_face_edge_kept_iff_angle (some Real.pi) h⟩

/-- Claim C8: label propagation always terminates — for every face set,
adjacency structure (including cyclic ones), lock set and initial labeling,
the engine's result equals some `k ≤ 10` full passes, and it stops either
because a pass changed nothing (the result is a fixed point of the pass) or
because the 10-iteration bound was exhausted, returning the labeling reached
at that point. -/
theorem c8_propagation_terminates (faces : List FaceGeo) (locked : List Nat)
    (cls : List (Option MLabel)) :
    ∃ k, k ≤ 10 ∧
      propagateClassifications faces locked cls = (onePass faces locked)^[k] cls ∧
      (onePass faces locked (propagateClassifications faces locked cls) =
          propagateClassifications faces locked cls ∨ k = 10) :=
  propLoop_runs_iterates faces locked 10 cls

/-- Claim C9: for every analyzed solid (exact volume and surface area in
mm³/mm², bbox in mm), the response reports `volume_cm3 = volume / 1000`,
`surface_area_cm2 = area / 100`, and part width/height/depth as the x/y/z
bbox extents divided by 10, alongside the unconverted exact values. -/
theorem c9_unit_conversions (volume area : ℚ) (bb : BBox) :
    (buildAnalyzeResponse volume area bb).volume_cm3 = volume / 1000 ∧
    (buildAnalyzeResponse volume area bb).surface_area_cm2 = area / 100 ∧
    (buildAnalyzeResponse volume area bb).part_width_cm = (bb.xmax - bb.xmin) / 10 ∧
    (buildAnalyzeResponse volume area bb).part_height_cm = (bb.ymax - bb.ymin) / 10 ∧
    (buildAnalyzeResponse volume area bb).part_depth_cm = (bb.zmax - bb.zmin) / 10 ∧
    (buildAnalyzeResponse volume area bb).exact_volume = volume ∧
    (buildAnalyzeResponse volume area bb).exact_surface_area = area :=
  ⟨rfl, rfl, rfl, rfl, rfl, rfl, rfl⟩

/-- Claim C10: for every geometry descriptor and material string,
`select_routings_industrial` returns a `recommended_routings` list that is
nonempty, duplicate-free, and drawn entirely from
{VMC Machining, CNC Lathe, Boring Mill, Keyway Machine, Wire EDM}. -/
theorem c10_routings_invariants (d : GeomDesc) (material : String) :
    (selectRoutingsIndustrial d material).recommended_routings ≠ [] ∧
    (selectRoutingsIndustrial d material).recommended_routings.Nodup ∧
    ∀ x ∈ (selectRoutingsIndustrial d material).recommended_routings,
      x ∈ allowedRoutings := by
  refine ⟨?_, ?_, ?_⟩
  · exact dedupFirst_ne_nil (withFallback_ne_nil _)
  · exact dedupFirst_nodup _
  · intro x hx
    have h1 := mem_dedupFirst hx
    rcases mem_withFallback h1 with h2 | h2
    · rw [h2]; simp [allowedRoutings]
    · rcases mem_tolRoutings h2 with h3 | h3
      · rcases mem_materialRoutings h3 with h4 | h4
        · exact mem_geomRoutings h4
        · rw [h4]; simp [allowedRoutings]
      · rw [h3]; simp [allowedRoutings]

/-- Witness for C10 at a concrete descriptor and material. -/
theorem c10_witness :
    (selectRoutingsIndustrial descW "Stainless Steel").recommended_routings ≠ [] ∧
    (selectRoutingsIndustrial descW "Stainless Steel").recommended_routings.Nodup ∧
    ∀ x ∈ (selectRoutingsIndustrial descW "Stainless Steel").recommended_routings,
      x ∈ allowedRoutings :=
  c10_routings_invariants descW "Stainless Steel"

/-- Size of the concrete 100 mm cube bbox. -/
theorem bbCube_size : bboxSize bbCube = 100 := by
  norm_num [bboxSize, bbCube]

/-- Faces adjacent to edge 0 of the chain scenario. -/
theorem fOE_chain_zero : facesOfEdge facesChain 0 = [0, 1] := by rfl

/-- Faces adjacent to edge 1 of the chain scenario. -/
theorem fOE_chain_one : facesOfEdge facesChain 1 = [1, 2] := by rfl

/-- Face 0 of the chain has no direct neighbor passing the external test:
its only neighbor, face 1, is an internal cylinder. -/
theorem hasExtConn_chain_zero : hasExternalConnection bbCube facesChain 0 = false := by
  have h1 : isExternalNeighbor bbCube (facesChain.getD 1 fdefault) = false := by
    have hg : facesChain.getD 1 fdefault =
        { surf := Surf.cylinder cylB, area := 10, centroid := ⟨53, 50, 0⟩, edges := [0, 1] } := rfl
    rw [hg]
    unfold isExternalNeighbor
    dsimp only
    rw [decide_eq_false_iff_not]
    norm_num [dist2, bboxCenter, bbCube, cylB]
  have hedges : (facesChain.getD 0 fdefault).edges = [0] := rfl
  unfold hasExternalConnection
  rw [hedges]
  simp only [List.any_cons, List.any_nil, Bool.or_false]
  rw [fOE_chain_zero]
  simp only [List.any_cons, List.any_nil, Bool.or_false]
  rw [h1]
  simp

/-- Face 1 of the chain does have an external-passing direct neighbor:
face 2 is an external cylinder. -/
theorem hasExtConn_chain_one : hasExternalConnection bbCube facesChain 1 = true := by
  have h2 : isExternalNeighbor bbCube (facesChain.getD 2 fdefault) = true := by
    have hg : facesChain.getD 2 fdefault =
        { surf := Surf.cylinder cylC, area := 10, centroid := ⟨50, 110, 0⟩, edges := [1] } := rfl
    rw [hg]
    unfold isExternalNeighbor
    dsimp only
    rw [decide_eq_true_eq]
    norm_num [dist2, bboxCenter, bbCube, cylC]
  have hedges : (facesChain.getD 1 fdefault).edges = [0, 1] := rfl
  unfold hasExternalConnection
  rw [hedges]
  simp only [List.any_cons, List.any_nil, Bool.or_false]
  rw [fOE_chain_zero, fOE_chain_one]
  simp only [List.any_cons, List.any_nil, Bool.or_false]
  rw [h2]
  simp

/-- Face 0 of the chain is classified as a blind hole. -/
theorem classify_chain_zero :
    classifyFace bbCube facesChain 0 = Except.ok FaceClass.blindHole := by
  have hg : facesChain.getD 0 fdefault =
      { surf := Surf.cylinder cylA, area := 10, centroid := ⟨52, 50, 0⟩, edges := [0] } := rfl
  unfold classifyFace
  rw [hg]
  dsimp only
  rw [bbCube_size]
  rw [if_neg (by norm_num : ¬(100 : ℚ) = 0)]
  rw [if_pos (by norm_num [dist2, bboxCenter, bbCube, cylA] :
    dist2 (⟨52, 50, 0⟩ : Pnt) cylA.axisLoc < dist2 (bboxCenter bbCube) cylA.axisLoc)]
  rw [if_pos (by norm_num [cylA] : (cylA.radius * 2 / 100 : ℚ) < 15 / 100)]
  simp [hasExtConn_chain_zero]

/-- Face 1 of the chain is classified as a through-hole. -/
theorem classify_chain_one :
    classifyFace bbCube facesChain 1 = Except.ok FaceClass.throughHole := by
  have hg : facesChain.getD 1 fdefault =
      { surf := Surf.cylinder cylB, area := 10, centroid := ⟨53, 50, 0⟩, edges := [0, 1] } := rfl
  unfold classifyFace
  rw [hg]
  dsimp only
  rw [bbCube_size]
  rw [if_neg (by norm_num : ¬(100 : ℚ) = 0)]
  rw [if_pos (by norm_num [dist2, bboxCenter, bbCube, cylB] :
    dist2 (⟨53, 50, 0⟩ : Pnt) cylB.axisLoc < dist2 (bboxCenter bbCube) cylB.axisLoc)]
  rw [if_pos (by norm_num [cylB] : (cylB.radius * 2 / 100 : ℚ) < 15 / 100)]
  simp [hasExtConn_chain_one]

/-- Face 2 of the chain is an external main-body cylinder (no feature list). -/
theorem classify_chain_two :
    classifyFace bbCube facesChain 2 = Except.ok FaceClass.largeExternal := by
  have hg : facesChain.getD 2 fdefault =
      { surf := Surf.cylinder cylC, area := 10, centroid := ⟨50, 110, 0⟩, edges := [1] } := rfl
  unfold classifyFace
  rw [hg]
  dsimp only
  rw [bbCube_size]
  rw [if_neg (by norm_num : ¬(100 : ℚ) = 0)]
  rw [if_neg (by norm_num [dist2, bboxCenter, bbCube, cylC] :
    ¬ dist2 (⟨50, 110, 0⟩ : Pnt) cylC.axisLoc < dist2 (bboxCenter bbCube) cylC.axisLoc)]
  rw [if_neg (by norm_num [cylC] : ¬ (cylC.radius * 2 / 100 : ℚ) < 3 / 10)]

/-- Claim C1 (counterexample): face 0 of `facesChain` is an internal
cylindrical face with diameter ratio `0.04 < 0.15`, and it HAS an adjacency
path (through face 1) to the outer face 2 — so the claim says it is a
through-hole — yet the recognizer puts it in `blind_holes`, because the code
only inspects DIRECT edge-neighbors (and face 0's only neighbor, face 1, is
itself internal). -/
theorem c1_counterexample :
    dist2 ((facesChain.getD 0 fdefault).centroid) cylA.axisLoc <
        dist2 (bboxCenter bbCube) cylA.axisLoc ∧
    cylA.radius * 2 / bboxSize bbCube < 15 / 100 ∧
    Relation.ReflTransGen (adjacentFaces facesChain) 0 2 ∧
    outerLabeledFace bbCube (facesChain.getD 2 fdefault) ∧
    ∃ fs, recognizeFeatures bbCube facesChain = Except.ok fs ∧
      0 ∈ fs.blind_holes ∧ 0 ∉ fs.through_holes := by
  refine ⟨?_, ?_, ?_, ?_, ?_⟩
  · norm_num [facesChain, fdefault, dist2, bboxCenter, bbCube, cylA]
  · norm_num [cylA, bboxSize, bbCube]
  · have h01 : adjacentFaces facesChain 0 1 := ⟨by decide, 0, by decide, by decide⟩
    have h12 : adjacentFaces facesChain 1 2 := ⟨by decide, 1, by decide, by decide⟩
    exact Relation.ReflTransGen.head h01 (Relation.ReflTransGen.single h12)
  · exact ⟨cylC, rfl, by norm_num [facesChain, fdefault, dist2, bboxCenter, bbCube, cylC]⟩
  · refine ⟨mkFeatures bbCube facesChain,
      recognizeFeatures_ok bbCube facesChain (by norm_num [bboxSize, bbCube]), ?_, ?_⟩
    · show 0 ∈ collect bbCube facesChain FaceClass.blindHole
      rw [mem_collect]
      exact ⟨by decide, classify_chain_zero⟩
    · show 0 ∉ collect bbCube facesChain FaceClass.throughHole
      intro h
      have h2 := ((mem_collect bbCube facesChain FaceClass.throughHole 0).mp h).2
      rw [classify_chain_zero] at h2
      exact absurd h2 (by simp)

/-- Claim C1 (amended): an internal cylindrical face with diameter ratio below
0.15 is classified as a through-hole exactly when some face sharing an edge
with it is planar or is a cylinder whose centroid lies farther from that
cylinder's axis location than the bbox center does (`hasExternalConnection`);
otherwise it is a blind hole.  No adjacency paths of length > 1 and no face
labels are consulted. -/
theorem c1_small_internal_direct_neighbor (bb : BBox) (faces : List FaceGeo)
    (i : Nat) (c : Cyl) (hi : i < faces.length)
    (hsurf : (faces.getD i fdefault).surf = Surf.cylinder c)
    (hbb : bboxSize bb ≠ 0)
    (hint : dist2 (faces.getD i fdefault).centroid c.axisLoc <
      dist2 (bboxCenter bb) c.axisLoc)
    (hsmall : c.radius * 2 / bboxSize bb < 15 / 100) :
    ∃ fs, recognizeFeatures bb faces = Except.ok fs ∧
      (i ∈ fs.through_holes ↔ hasExternalConnection bb faces i = true) ∧
      (i ∈ fs.blind_holes ↔ hasExternalConnection bb faces i = false) := by
  have hcf : classifyFace bb faces i =
      (if hasExternalConnection bb faces i then Except.ok FaceClass.throughHole
       else Except.ok FaceClass.blindHole) := by
    unfold classifyFace
    rw [hsurf]
    dsimp only
    rw [if_neg hbb, if_pos hint, if_pos hsmall]
  refine ⟨mkFeatures bb faces, recognizeFeatures_ok bb faces hbb, ?_, ?_⟩
  · show i ∈ collect bb faces FaceClass.throughHole ↔ _
    rw [mem_collect, hcf]
    cases h : hasExternalConnection bb faces i <;> simp [hi, h]
  · show i ∈ collect bb faces FaceClass.blindHole ↔ _
    rw [mem_collect, hcf]
    cases h : hasExternalConnection bb faces i <;> simp [hi, h]

/-- Witness for C1's amended theorem at face 0 of the chain scenario. -/
theorem c1_witness :
    ∃ fs, recognizeFeatures bbCube facesChain = Except.ok fs ∧
      (0 ∈ fs.through_holes ↔ hasExternalConnection bbCube facesChain 0 = true) ∧
      (0 ∈ fs.blind_holes ↔ hasExternalConnection bbCube facesChain 0 = false) :=
  c1_small_internal_direct_neighbor bbCube facesChain 0 cylA (by decide) rfl
    (by norm_num [bboxSize, bbCube])
    (by norm_num [facesChain, fdefault, dist2, bboxCenter, bbCube, cylA])
    (by norm_num [cylA, bboxSize, bbCube])

/-- Face 0 of the groove pair is classified as an individual bore. -/
theorem classify_groove_zero :
    classifyFace bbCube facesGroove 0 = Except.ok FaceClass.bore := by
  have hg : facesGroove.getD 0 fdefault =
      { surf := Surf.cylinder cylG1, area := 20, centroid := ⟨60, 50, 0⟩, edges := [0] } := rfl
  unfold classifyFace
  rw [hg]
  dsimp only
  rw [bbCube_size]
  rw [if_neg (by norm_num : ¬(100 : ℚ) = 0)]
  rw [if_pos (by norm_num [dist2, bboxCenter, bbCube, cylG1] :
    dist2 (⟨60, 50, 0⟩ : Pnt) cylG1.axisLoc < dist2 (bboxCenter bbCube) cylG1.axisLoc)]
  rw [if_neg (by norm_num [cylG1] : ¬ (cylG1.radius * 2 / 100 : ℚ) < 15 / 100)]
  rw [if_pos (by norm_num [cylG1] : (cylG1.radius * 2 / 100 : ℚ) < 1 / 2)]

/-- Face 1 of the groove pair is classified as another individual bore. -/
theorem classify_groove_one :
    classifyFace bbCube facesGroove 1 = Except.ok FaceClass.bore := by
  have hg : facesGroove.getD 1 fdefault =
      { surf := Surf.cylinder cylG2, area := 20, centroid := ⟨62, 50, 0⟩, edges := [0] } := rfl
  unfold classifyFace
  rw [hg]
  dsimp only
  rw [bbCube_size]
  rw [if_neg (by norm_num : ¬(100 : ℚ) = 0)]
  rw [if_pos (by norm_num [dist2, bboxCenter, bbCube, cylG2] :
    dist2 (⟨62, 50, 0⟩ : Pnt) cylG2.axisLoc < dist2 (bboxCenter bbCube) cylG2.axisLoc)]
  rw [if_neg (by norm_num [cylG2] : ¬ (cylG2.radius * 2 / 100 : ℚ) < 15 / 100)]
  rw [if_pos (by norm_num [cylG2] : (cylG2.radius * 2 / 100 : ℚ) < 1 / 2)]

/-- Claim C4 (counterexample): two coaxial cylindrical faces with
`max_radius = 12 > 10 × 1.05 = min_radius × 1.05`, sharing an edge — the
spec's groove situation — produce NO Groove feature: the recognizer never
groups coaxial faces (its output has no groove category at all) and instead
emits the two faces as two separate Bore features. -/
theorem c4_counterexample :
    cylG1.axisLoc = cylG2.axisLoc ∧ cylG1.axisDir = cylG2.axisDir ∧
    cylG1.radius * (105 / 100) < cylG2.radius ∧
    ∃ fs, recognizeFeatures bbCube facesGroove = Except.ok fs ∧
      fs.bores = [0, 1] ∧ fs.through_holes = [] ∧ fs.blind_holes = [] ∧
      fs.bosses = [] ∧ fs.pockets = [] := by
  refine ⟨rfl, rfl, by norm_num [cylG1, cylG2], ?_⟩
  have hr : List.range facesGroove.length = [0, 1] := rfl
  refine ⟨mkFeatures bbCube facesGroove,
    recognizeFeatures_ok bbCube facesGroove (by norm_num [bboxSize, bbCube]),
    ?_, ?_, ?_, ?_, rfl⟩
  · show collect bbCube facesGroove FaceClass.bore = [0, 1]
    simp [collect, hr, classify_groove_zero, classify_groove_one, Except.toOption]
  · show collect bbCube facesGroove FaceClass.throughHole = []
    simp [collect, hr, classify_groove_zero, classify_groove_one, Except.toOption]
  · show collect bbCube facesGroove FaceClass.blindHole = []
    simp [collect, hr, classify_groove_zero, classify_groove_one, Except.toOption]
  · show collect bbCube facesGroove FaceClass.boss = []
    simp [collect, hr, classify_groove_zero, classify_groove_one, Except.toOption]

/-- Claim C4 (amended): the recognizer performs no coaxial grouping and emits
no Groove features; each cylindrical face is classified on its own, so a
coaxial pair with radii differing by more than 5 % whose diameter ratios fall
in the bore band `[0.15, 0.5)` yields two separate Bore features. -/
theorem c4_coaxial_pair_two_bores (bb : BBox) (faces : List FaceGeo)
    (i j : Nat) (ci cj : Cyl) (hi : i < faces.length) (hj : j < faces.length)
    (hsi : (faces.getD i fdefault).surf = Surf.cylinder ci)
    (hsj : (faces.getD j fdefault).surf = Surf.cylinder cj)
    (hax : ci.axisLoc = cj.axisLoc) (hdir : ci.axisDir = cj.axisDir)
    (hrad : ci.radius * (105 / 100) < cj.radius)
    (hbb : bboxSize bb ≠ 0)
    (hinti : dist2 (faces.getD i fdefault).centroid ci.axisLoc <
      dist2 (bboxCenter bb) ci.axisLoc)
    (hintj : dist2 (faces.getD j fdefault).centroid cj.axisLoc <
      dist2 (bboxCenter bb) cj.axisLoc)
    (hri1 : ¬ ci.radius * 2 / bboxSize bb < 15 / 100)
    (hri2 : ci.radius * 2 / bboxSize bb < 1 / 2)
    (hrj1 : ¬ cj.radius * 2 / bboxSize bb < 15 / 100)
    (hrj2 : cj.radius * 2 / bboxSize bb < 1 / 2) :
    ∃ fs, recognizeFeatures bb faces = Except.ok fs ∧
      i ∈ fs.bores ∧ j ∈ fs.bores := by
  have hci : classifyFace bb faces i = Except.ok FaceClass.bore := by
    unfold classifyFace
    rw [hsi]
    dsimp only
    rw [if_neg hbb, if_pos hinti, if_neg hri1, if_pos hri2]
  have hcj : classifyFace bb faces j = Except.ok FaceClass.bore := by
    unfold classifyFace
    rw [hsj]
    dsimp only
    rw [if_neg hbb, if_pos hintj, if_neg hrj1, if_pos hrj2]
  refine ⟨mkFeatures bb faces, recognizeFeatures_ok bb faces hbb, ?_, ?_⟩
  · show i ∈ collect bb faces FaceClass.bore
    exact (mem_collect bb faces FaceClass.bore i).mpr ⟨hi, hci⟩
  · show j ∈ collect bb faces FaceClass.bore
    exact (mem_collect bb faces FaceClass.bore j).mpr ⟨hj, hcj⟩

/-- Witness for C4's amended theorem at the concrete coaxial pair. -/
theorem c4_witness :
    ∃ fs, recognizeFeatures bbCube facesGroove = Except.ok fs ∧
      0 ∈ fs.bores ∧ 1 ∈ fs.bores :=
  c4_coaxial_pair_two_bores bbCube facesGroove 0 1 cylG1 cylG2
    (by decide) (by decide) rfl rfl rfl rfl
    (by norm_num [cylG1, cylG2])
    (by norm_num [bboxSize, bbCube])
    (by norm_num [facesGroove, fdefault, dist2, bboxCenter, bbCube, cylG1])
    (by norm_num [facesGroove, fdefault, dist2, bboxCenter, bbCube, cylG2])
    (by norm_num [cylG1, bboxSize, bbCube])
    (by norm_num [cylG1, bboxSize, bbCube])
    (by norm_num [cylG2, bboxSize, bbCube])
    (by norm_num [cylG2, bboxSize, bbCube])

/-- Claim C5 (counterexample): on a degenerate bounding box (`bboxSize = 0`)
with a cylindrical face present the recognizer does NOT short-circuit to an
unclassified result — it evaluates `diameter_ratio = (radius*2)/bbox_size`
with a zero denominator and the analysis aborts with the `ZeroDivisionError`
modelled by `Except.error ()`. -/
theorem c5_counterexample :
    bboxSize bbDeg = 0 ∧ recognizeFeatures bbDeg facesDeg = Except.error () := by
  have h0 : bboxSize bbDeg = 0 := by norm_num [bboxSize, bbDeg]
  refine ⟨h0, ?_⟩
  have herr : classifyFace bbDeg facesDeg 0 = Except.error () := by
    have hg : facesDeg.getD 0 fdefault =
        { surf := Surf.cylinder cylA, area := 5, centroid := ⟨2, 0, 0⟩, edges := [0] } := rfl
    unfold classifyFace
    rw [hg]
    dsimp only
    rw [if_pos h0]
  unfold recognizeFeatures
  rw [if_neg]
  intro hall
  have h1 := List.all_eq_true.mp hall 0 (List.mem_range.mpr (by decide))
  rw [herr] at h1
  exact absurd h1 (by simp [Except.toOption])

/-- Claim C5 (amended): whenever the bounding box is degenerate and any
cylindrical face is present, the recognizer raises the division-by-zero error
(aborting the whole analysis) instead of returning any feature record — there
is no guard and no unclassified short-circuit. -/
theorem c5_degenerate_bbox_raises (bb : BBox) (faces : List FaceGeo)
    (h0 : bboxSize bb = 0) (i : Nat) (hi : i < faces.length) (c : Cyl)
    (hs : (faces.getD i fdefault).surf = Surf.cylinder c) :
    recognizeFeatures bb faces = Except.error () := by
  have herr : classifyFace bb faces i = Except.error () := by
    unfold classifyFace
    rw [hs]
    dsimp only
    rw [if_pos h0]
  unfold recognizeFeatures
  rw [if_neg]
  intro hall
  have h1 := List.all_eq_true.mp hall i (List.mem_range.mpr hi)
  rw [herr] at h1
  exact absurd h1 (by simp [Except.toOption])

/-- Witness for C5's amended theorem at the concrete degenerate input. -/
theorem c5_witness :
    bboxSize bbDeg = 0 ∧ 0 < facesDeg.length ∧
    (facesDeg.getD 0 fdefault).surf = Surf.cylinder cylA ∧
    recognizeFeatures bbDeg facesDeg = Except.error () := by
  have h0 : bboxSize bbDeg = 0 := by norm_num [bboxSize, bbDeg]
  exact ⟨h0, by decide, rfl,
    c5_degenerate_bbox_raises bbDeg facesDeg h0 0 (by decide) cylA rfl⟩

/-- Claim C3 (counterexample): the mesh classifier labels the concrete
cylindrical face `external` purely from the distance heuristic (its centroid
is farther from the axis location than the bbox center), while the spec's
ray rule — for a probe where both offset directions hit material — yields
`inner`; the code performs no such probe, so its label disagrees with the
claimed point-in-solid/ray determination. -/
theorem c3_counterexample :
    classifyCylFace bbCube facesSolo 0 = some MLabel.external ∧
    specRayLabel probeBothHit = SpecLabel.inner ∧
    specToCode (specRayLabel probeBothHit) ≠ MLabel.external := by
  refine ⟨?_, by decide, by decide⟩
  have hg : facesSolo.getD 0 fdefault =
      { surf := Surf.cylinder cylC, area := 10, centroid := ⟨50, 110, 0⟩, edges := [] } := rfl
  unfold classifyCylFace
  rw [hg]
  dsimp only
  rw [if_neg (by norm_num [dist2, bboxCenter, bbCube, cylC] :
    ¬ dist2 (⟨50, 110, 0⟩ : Pnt) cylC.axisLoc < dist2 (bboxCenter bbCube) cylC.axisLoc)]

/-- Claim C3 (amended): the classifier consults no point-in-solid or ray
query; a cylindrical face's label is fully determined by the distance
heuristic — `external` when the centroid is at least as far from the cylinder
axis location as the bbox center, else `internal`, refined to `through` for
small internal cylinders (`radius < bbox_size × 0.15`) with an
externally-classified cylindrical neighbor.  Non-cylindrical faces get no
step-1 label. -/
theorem c3_label_by_distance_heuristic (bb : BBox) (faces : List FaceGeo)
    (i : Nat) (c : Cyl) (hs : (faces.getD i fdefault).surf = Surf.cylinder c) :
    classifyCylFace bb faces i =
      (if dist2 (faces.getD i fdefault).centroid c.axisLoc <
          dist2 (bboxCenter bb) c.axisLoc then
        if c.radius < bboxSize bb * (15 / 100) then
          if hasOuterNeighbor bb faces i then some MLabel.through
          else some MLabel.internal
        else some MLabel.internal
      else some MLabel.external) := by
  unfold classifyCylFace
  rw [hs]

/-- Witness for C3's amended theorem at the concrete solo face. -/
theorem c3_witness :
    (facesSolo.getD 0 fdefault).surf = Surf.cylinder cylC ∧
    classifyCylFace bbCube facesSolo 0 =
      (if dist2 (facesSolo.getD 0 fdefault).centroid cylC.axisLoc <
          dist2 (bboxCenter bbCube) cylC.axisLoc then
        if cylC.radius < bboxSize bbCube * (15 / 100) then
          if hasOuterNeighbor bbCube facesSolo 0 then some MLabel.through
          else some MLabel.internal
        else some MLabel.internal
      else some MLabel.external) :=
  ⟨rfl, c3_label_by_distance_heuristic bbCube facesSolo 0 cylC rfl⟩

/-- Claim C6 (counterexample): in the propagation scenario, unlocked face 0
has labeled neighbors `[external, external, internal]`.  The priority-ordered
MAJORITY label of the claim is `external` (two of three, and counts dominate
before priority applies), yet the pass assigns `internal`: the code adopts
the highest-priority label PRESENT, with no counting at all. -/
theorem c6_counterexample :
    (0 ∉ lockedProp) ∧
    neighborLabels facesProp clsProp 0 =
      [MLabel.external, MLabel.external, MLabel.internal] ∧
    majorityLabel (neighborLabels facesProp clsProp 0) = some MLabel.external ∧
    (onePass facesProp lockedProp clsProp).getD 0 none = some MLabel.internal ∧
    MLabel.internal ≠ MLabel.external := by
  decide

/-- Claim C6 (amended): at its turn in a pass, an unlocked face with at least
one labeled neighbor adopts the highest-priority label present among its
labeled neighbors, with priority `internal > through > external` — not a
majority vote, and `planar` never propagates (it is only the default for a
never-labeled isolated planar face). -/
theorem c6_unlocked_face_adopts_priority (faces : List FaceGeo)
    (locked : List Nat) (cls : List (Option MLabel)) (i : Nat)
    (hi : i < cls.length) (hlock : i ∉ locked)
    (hnb : neighborLabels faces cls i ≠ []) :
    (passStep faces locked cls i).getD i none =
      some (priorityAdopted (neighborLabels faces cls i)) := by
  unfold passStep
  rw [if_neg hlock]
  dsimp only
  rw [if_pos hnb]
  rw [List.getD_eq_getElem?_getD, List.getElem?_set_self (by simpa using hi)]
  rfl

/-- Witness for C6's amended theorem at the concrete propagation scenario. -/
theorem c6_witness :
    0 < clsProp.length ∧ 0 ∉ lockedProp ∧
    neighborLabels facesProp clsProp 0 ≠ [] ∧
    (passStep facesProp lockedProp clsProp 0).getD 0 none =
      some (priorityAdopted (neighborLabels facesProp clsProp 0)) :=
  ⟨by decide, by decide, by decide,
    c6_unlocked_face_adopts_priority facesProp lockedProp clsProp 0
      (by decide) (by decide) (by decide)⟩
